import Mathlib

/-!
A shallow embedding in Lean 4 of the core client logic of `nfsshell.c`
(an interactive NFSv3 / MOUNT3 client), together with theorems settling
behavioural claims about path resolution (`do_cd`), directory iteration
(`getdirentries`), privileged-port acquisition (`privileged`), shell glob
matching (`match` / `matchpattern`), NFS transport selection (`open_nfs`),
the file read loops (`do_get` / `do_cat`), session channel state
(`close_nfs` / `close_mount`), SETATTR construction (`do_chmod` /
`do_chown`), the NFS status message table (`nfs_error`), and file upload
(`do_put`).

Loops that are unbounded in the C source because they depend on replies
arriving from the network are modelled with an explicit `fuel` parameter
bounding the number of iterations of a run; where the C loop terminates
for purely local reasons the fuel chosen by the wrapper is large enough
that the bound is never reached.
-/

namespace NfsShell

/-- NFS3_OK status code (RFC 1813). -/
def NFS3_OK : Nat := 0

/-- An opaque NFS file handle, a byte string the client never interprets. -/
abbrev Handle := List Nat

/-! ## Glob matching: `match`, `matchpattern`, `amatchpattern`, `umatchpattern`

Strings are modelled as lists of byte values; the terminating NUL of a C
string is represented by the end of the list (bytes inside a C string are
nonzero).  `amatchpattern` computes `scc = *s++ & 0177`, replaced by
`0200` when the masked value is zero. -/

/-- Byte codes used by the pattern matcher. -/
def lbCode : Nat := 91
/-- Right bracket byte code. -/
def rbCode : Nat := 93
/-- Dash byte code. -/
def dashCode : Nat := 45
/-- Star byte code. -/
def starCode : Nat := 42
/-- Question mark byte code. -/
def qmCode : Nat := 63
/-- Dot byte code. -/
def dotCode : Nat := 46

/-- The character-class scan inside `amatchpattern` (the `case '[':` loop
of the source).  Given the masked subject character `scc`, the running
lower bound `lc` (initially `077777`), the `ok` flag and the remaining
pattern, it returns `some rest` when the scan reaches a right bracket
with `ok` set (the C code then continues matching at `rest`), and `none`
when the class fails or the pattern ends before a right bracket (in the C
code the `while` loop reads the terminating NUL and returns 0; a dash
with nothing after it reads the NUL as the range bound, which can never
satisfy `lc <= scc && scc <= 0` since `lc` is positive, and the scan then
fails at the end of the pattern). -/
def bracketScan (scc : Nat) : Nat → Bool → List Nat → Option (List Nat)
  | _, _, [] => none
  | lc, ok, cc :: p =>
    if cc = rbCode then
      (if ok then some p else none)
    else if cc = dashCode then
      match p with
      | [] => none
      | c :: p' => bracketScan scc lc (if lc ≤ scc ∧ scc ≤ c then true else ok) p'
    else
      bracketScan scc cc (if scc = cc then true else ok) p

/-- `amatchpattern` (tag `false`) and `umatchpattern` (tag `true`) from
the source, merged into a single function structurally recursive on a
fuel bound so that runs are kernel-computable; `none` means the fuel ran
out, which the fuel chosen by `matchpattern` never allows. -/
def gmatchF : Nat → Bool → List Nat → List Nat → Option Bool
  | 0, _, _, _ => none
  | _ + 1, false, s, [] => some (decide (s = []))
  | fuel + 1, false, s, c :: p =>
    let scc : Nat :=
      match s with
      | [] => 0
      | b :: _ => if b &&& 127 = 0 then 128 else b &&& 127
    if c = lbCode then
      match bracketScan scc 32767 false p with
      | some rest => gmatchF fuel false s.tail rest
      | none => some false
    else if c = starCode then
      gmatchF fuel true s p
    else if c = qmCode then
      (if scc ≠ 0 then gmatchF fuel false s.tail p else some false)
    else if c ≠ scc then
      some false
    else
      (if scc ≠ 0 then gmatchF fuel false s.tail p else some false)
  | _ + 1, true, _, [] => some true
  | fuel + 1, true, s, c :: p =>
    match s with
    | [] => some false
    | _ :: s' =>
      match gmatchF fuel false s (c :: p) with
      | none => none
      | some true => some true
      | some false => gmatchF fuel true s' (c :: p)

/-- A fuel bound sufficient for every run of the matcher: each recursive
call strictly decreases the triple (pattern length, subject length, tag)
in lexicographic order, so call chains are shorter than this product. -/
def globFuel (s p : List Nat) : Nat := 2 * (p.length + 1) * (s.length + 1)

/-- `matchpattern` from the source: a leading dot in the subject is
matched only by a literal leading dot in the pattern, otherwise
`amatchpattern` decides. -/
def matchpattern (s p : List Nat) : Option Bool :=
  if s.headD 0 = dotCode ∧ p.headD 0 ≠ dotCode then some false
  else gmatchF (globFuel s p) false s p

/-- `match` from the source: an empty pattern list matches every name,
otherwise some pattern must match. -/
def matchNames (s : List Nat) (pats : List (List Nat)) : Bool :=
  if pats.isEmpty then true
  else pats.any (fun pat => (matchpattern s pat).getD false)

/-- ASCII byte encoding of a Lean string, the form the matcher consumes. -/
def str (s : String) : List Nat := s.data.map Char.toNat

/-! ## NFS status messages: `nfs_error` -/

/-- The NFSv3 status codes named in the switch of `nfs_error`, plus
`other` for every value the switch does not name (among them the real
NFSv3 codes NFS3ERR_XDEV and NFS3ERR_INVAL, which the table omits). -/
inductive Nfsstat3
  | ok | perm | noent | ioerr | nxioerr | acces | exist | nodev | notdir
  | isdir | fbig | nospc | rofs | mlink | nametoolong | notempty | dquot
  | stale | remote | badhandle | notsync | badcookie | notsupp | toosmall
  | serverfault | badtype | jukebox
  | other (code : Nat)
deriving DecidableEq

/-- `nfs_error` from the source, with the messages copied verbatim,
including the misspelled default. -/
def nfs_error : Nfsstat3 → String
  | .ok => "No error"
  | .perm => "Not owner"
  | .noent => "No such file or directory"
  | .ioerr => "I/O error"
  | .nxioerr => "No such device or address"
  | .acces => "Permission denied"
  | .exist => "File exists"
  | .nodev => "No such device"
  | .notdir => "Not a directory"
  | .isdir => "Is a directory"
  | .fbig => "File too large"
  | .nospc => "No space left on device"
  | .rofs => "Read-only file system"
  | .mlink => "Too many hard links"
  | .nametoolong => "File name too long"
  | .notempty => "Directory not empty"
  | .dquot => "Disc quota exceeded"
  | .stale => "Stale NFS file handle"
  | .remote => "Too many levels of remote in path"
  | .badhandle => "Illegal NFS file handle"
  | .notsync => "Update synchronization mismatch"
  | .badcookie => "READDIR or READDIRPLUS cookie is stale"
  | .notsupp => "Operation is not supported"
  | .toosmall => "Buffer or request is too small"
  | .serverfault => "Other server error"
  | .badtype => "Type not supported by server"
  | .jukebox => "Retrieval pending"
  | .other _ => "UKNOWN NFS ERROR"

/-! ## SETATTR construction: `do_chmod` and `do_chown` -/

/-- The `sattr3` new-attributes record of a SETATTR call: which fields
are marked set, and the values sent for the set ones. -/
structure Sattr3 where
  modeSet : Bool := false
  modeVal : Nat := 0
  uidSet : Bool := false
  uidVal : Int := 0
  gidSet : Bool := false
  gidVal : Int := 0
  sizeSet : Bool := false
  atimeSet : Bool := false
  mtimeSet : Bool := false
deriving DecidableEq

/-- SETATTR3args as built by the commands: new attributes plus the
`guard.check` discriminator. -/
structure Setattr3args where
  newAttributes : Sattr3
  guardCheck : Bool
deriving DecidableEq

/-- The SETATTR arguments `do_chmod` builds after its successful LOOKUP:
only the mode field is marked set, and the guard is `check = FALSE`. -/
def chmodSetattrArgs (mode : Nat) : Setattr3args :=
  { newAttributes := { modeSet := true, modeVal := mode }, guardCheck := false }

/-- The SETATTR arguments `do_chown` builds after its successful LOOKUP.
`ownGid` is the optional gid of the `uid[.gid]` argument; when the
argument has no `.gid` part the code leaves `own_gid` at `-1` and still
marks the gid field set (`set_it = TRUE` unconditionally). -/
def chownSetattrArgs (ownUid : Int) (ownGid : Option Int) : Setattr3args :=
  { newAttributes :=
      { uidSet := true, uidVal := ownUid, gidSet := true, gidVal := ownGid.getD (-1) },
    guardCheck := false }

/-! ## Session channel state: `close_nfs`, `close_mount`, `open_nfs`, `do_setuid`

`ClientPtr` models an RPC `CLIENT *` variable: `null`, pointing at a
live client, or pointing at a client already passed to `clnt_destroy`
(the source never resets the pointer to NULL after destroying it).  Each
operation returns the new state together with a flag that is `true` when
the operation invoked an RPC or auth routine on an already destroyed
client. -/

/-- State of an RPC client pointer variable. -/
inductive ClientPtr
  | null
  | live
  | destroyed
deriving DecidableEq

/-- The four process-wide state variables of the session. -/
structure SessionChannels where
  remotehost : Bool
  mntclient : ClientPtr
  nfsclient : ClientPtr
  mountpath : Bool
deriving DecidableEq

/-- Program start: no host, no clients, nothing mounted. -/
def initialChannels : SessionChannels :=
  { remotehost := false, mntclient := .null, nfsclient := .null, mountpath := false }

/-- `close_nfs` from the source: a no-op when nothing is mounted;
otherwise it issues MOUNT3 UMNT on `mntclient`, clears `mountpath`, and
when `nfsclient` is non-null destroys its auth and the client, leaving
the pointer dangling (it is never set back to NULL). -/
def close_nfs (s : SessionChannels) : SessionChannels × Bool :=
  if s.mountpath = false then (s, false)
  else
    let used := decide (s.mntclient = .destroyed)
    let s1 := { s with mountpath := false }
    if s.nfsclient ≠ .null then
      ({ s1 with nfsclient := .destroyed }, used || decide (s.nfsclient = .destroyed))
    else (s1, used)

/-- `close_mount` from the source: closes the NFS channel first when one
is mounted, clears `remotehost`, and when `mntclient` is non-null
destroys it, likewise leaving the pointer dangling. -/
def close_mount (s : SessionChannels) : SessionChannels × Bool :=
  let r1 := if s.mountpath then close_nfs s else (s, false)
  let s2 := { r1.1 with remotehost := false }
  if r1.1.mntclient ≠ .null then
    ({ s2 with mntclient := .destroyed }, r1.2 || decide (r1.1.mntclient = .destroyed))
  else (s2, r1.2)

/-- `open_mount` when host resolution and client creation succeed: closes
a previous session when one exists, then installs a live MOUNT client. -/
def open_mount_ok (s : SessionChannels) : SessionChannels × Bool :=
  let r1 := if s.remotehost then close_mount s else (s, false)
  ({ r1.1 with remotehost := true, mntclient := .live }, r1.2)

/-- `open_nfs` in the run where RPC client creation succeeds and the
subsequent MOUNT3 MNT call fails (RPC failure or non-OK status): the
function returns 0 after `nfsclient` has been installed but before
`mountpath` is assigned. -/
def open_nfs_mnt_fails (s : SessionChannels) : SessionChannels × Bool :=
  let r1 := if s.mountpath then close_nfs s else (s, false)
  ({ r1.1 with nfsclient := .live }, r1.2)

/-- `open_nfs` in the fully successful run: NFS client installed and
`mountpath` set. -/
def open_nfs_ok (s : SessionChannels) : SessionChannels × Bool :=
  let r1 := if s.mountpath then close_nfs s else (s, false)
  ({ r1.1 with nfsclient := .live, mountpath := true }, r1.2)

/-- The channel interaction of `do_setuid` (and identically `do_setgid`):
whenever the `nfsclient` pointer is non-null the command destroys and
rebuilds its authenticator, so it operates on whatever the pointer
references, destroyed or not. -/
def do_setuid (s : SessionChannels) : SessionChannels × Bool :=
  if s.nfsclient ≠ .null then (s, decide (s.nfsclient = .destroyed)) else (s, false)

/-! ## Transport selection: `open_nfs` -/

/-- NFS transport carriers. -/
inductive Transport
  | tcp
  | udp
deriving DecidableEq

/-- Flag bit: force NFS over UDP. -/
def NFS_OVER_UDP : Nat := 1
/-- Flag bit: force NFS over TCP. -/
def NFS_OVER_TCP : Nat := 2
/-- Mask selecting the transport bits of the mount flags. -/
def TRANSPORT_MASK : Nat := 3

/-- The transport selection switch of `open_nfs`: the transports
attempted in order, and the one on which a client was created (`none`
when every attempt failed).  `tcpCreateOk` and `udpCreateOk` say whether
`clnttcp_create` and `clntudp_create` succeed in this run. -/
def openNfsTransports (flags : Nat) (tcpCreateOk udpCreateOk : Bool) :
    List Transport × Option Transport :=
  if flags &&& TRANSPORT_MASK = NFS_OVER_UDP then
    ([.udp], if udpCreateOk then some .udp else none)
  else if flags &&& TRANSPORT_MASK = NFS_OVER_TCP then
    ([.tcp], if tcpCreateOk then some .tcp else none)
  else
    if tcpCreateOk then ([.tcp], some .tcp)
    else ([.tcp, .udp], if udpCreateOk then some .udp else none)

/-! ## Path resolution: `do_cd` -/

/-- NFSv3 object types (`ftype3`). -/
inductive NfType
  | nf3reg | nf3dir | nf3blk | nf3chr | nf3lnk | nf3sock | nf3fifo
deriving DecidableEq

/-- The parts of a LOOKUP3 reply that `do_cd` inspects: the status, the
type from the post-op attributes, and the object handle. -/
structure LookupReply where
  status : Nat
  ftype : NfType
  object : Handle
deriving DecidableEq

/-- A run of the server: the LOOKUP reply for each (directory handle,
name) pair; `none` models an RPC failure (`nfs3_lookup_3` returning
NULL). -/
abbrev LookupOracle := Handle → List Char → Option LookupReply

/-- Outcome of the component walk of `do_cd`. -/
inductive CdResult
  | ok (h : Handle)
  | rpcErr
  | nfsErr (component : List Char) (st : Nat)
  | notDir (component : List Char)
  | fuelOut
deriving DecidableEq

/-- The component loop of `do_cd`: while characters remain, scan a
component up to the next slash or the end, LOOKUP it in the handle
accumulated so far, fail on RPC error, non-OK status, or a type other
than NF3DIR, and otherwise continue with the returned handle.  The fuel
passed by `do_cd` exceeds the path length, which `cdWalk_no_fuelOut`
shows is enough. -/
def cdWalk (L : LookupOracle) : Nat → Handle → List Char → CdResult
  | 0, _, _ => .fuelOut
  | _ + 1, h, [] => .ok h
  | fuel + 1, h, p@(_ :: _) =>
    match L h (p.takeWhile (fun c => c ≠ '/')) with
    | none => .rpcErr
    | some r =>
      if r.status ≠ NFS3_OK then .nfsErr (p.takeWhile (fun c => c ≠ '/')) r.status
      else if r.ftype ≠ .nf3dir then .notDir (p.takeWhile (fun c => c ≠ '/'))
      else cdWalk L fuel r.object ((p.dropWhile (fun c => c ≠ '/')).tail)

/-- The session state `do_cd` reads and writes: the mount path sentinel,
the root handle of the mount, and the current directory handle. -/
structure CdSession where
  mountpath : Option (List Char)
  rootHandle : Handle
  directory_handle : Handle
deriving DecidableEq

/-- Starting handle and remaining path of `do_cd`: a leading slash
restarts from the mount root and is consumed; otherwise the walk starts
at the current directory handle. -/
def cdStart (s : CdSession) (path : List Char) : Handle × List Char :=
  if path.head? = some '/' then (s.rootHandle, path.tail)
  else (s.directory_handle, path)

/-- The walk `do_cd` performs for a given argument. -/
def cdWalkOf (L : LookupOracle) (s : CdSession) (path : List Char) : CdResult :=
  cdWalk L ((cdStart s path).2.length + 1) (cdStart s path).1 (cdStart s path).2

/-- `do_cd` from the source: rejected without a mounted file system; with
no argument the current handle becomes the mount root; otherwise the
component walk runs and the current directory handle is overwritten
exactly when the walk returns a handle. -/
def do_cd (L : LookupOracle) (s : CdSession) (arg : Option (List Char)) : CdSession :=
  match s.mountpath with
  | none => s
  | some _ =>
    match arg with
    | none => { s with directory_handle := s.rootHandle }
    | some path =>
      match cdWalkOf L s path with
      | .ok h => { s with directory_handle := h }
      | _ => s

/-! ## Directory iteration: `getdirentries` -/

/-- The parts of a READDIR3 reply the iterator inspects: status, the
entry chain as (name, cookie) pairs, and the eof flag. -/
structure ReaddirReply where
  status : Nat
  entries : List (List Nat × Nat)
  eof : Bool
deriving DecidableEq

/-- A run of the server: the READDIR reply for each cookie; `none`
models an RPC failure. -/
abbrev ReaddirOracle := Nat → Option ReaddirReply

/-- Why the READDIR loop stopped. -/
inductive DirStop
  | eofReached
  | rpcFail
  | badStatus (st : Nat)
  | cookieCrash
  | fuelOut
deriving DecidableEq

/-- `strcmp`-compatible at-most test on byte strings. -/
def strcmpLe : List Nat → List Nat → Bool
  | [], _ => true
  | _ :: _, [] => false
  | a :: as, b :: bs => if a = b then strcmpLe as bs else decide (a < b)

/-- Insertion step of the sort applied to the name table. -/
def insertName (x : List Nat) : List (List Nat) → List (List Nat)
  | [] => [x]
  | y :: ys => if strcmpLe x y then x :: y :: ys else y :: insertName x ys

/-- The `qsort(..., dircmp)` of `getdirentries`, as an insertion sort by
`strcmp` order. -/
def sortNames : List (List Nat) → List (List Nat)
  | [] => []
  | x :: xs => insertName x (sortNames xs)

/-- The READDIR loop of `getdirentries`: starting from cookie 0,
accumulate the names of each OK reply; stop on RPC failure or non-OK
status (the C code `break`s out), on eof, or — when a reply is OK, not
eof, and carries no entries — on the NULL-pointer dereference the C code
performs to fetch the next cookie (`cookieCrash`). -/
def getdirLoop (rd : ReaddirOracle) :
    Nat → Nat → List (List Nat) → (List (List Nat) × DirStop)
  | 0, _, acc => (acc, .fuelOut)
  | fuel + 1, cookie, acc =>
    match rd cookie with
    | none => (acc, .rpcFail)
    | some r =>
      if r.status ≠ NFS3_OK then (acc, .badStatus r.status)
      else
        let acc' := acc ++ r.entries.map Prod.fst
        if r.eof then (acc', .eofReached)
        else
          match r.entries.getLast? with
          | none => (acc', .cookieCrash)
          | some e => getdirLoop rd fuel e.2 acc'

/-- `getdirentries` from the source: run the loop, and — exactly as the C
function does after `break` — sort whatever was accumulated and return
success (`some table`) for eof, RPC failure and bad status alike.  The
crash and fuel cases carry no return value. -/
def getdirentries (rd : ReaddirOracle) (fuel : Nat) :
    Option (List (List Nat)) × DirStop :=
  match getdirLoop rd fuel 0 [] with
  | (acc, .eofReached) => (some (sortNames acc), .eofReached)
  | (acc, .rpcFail) => (some (sortNames acc), .rpcFail)
  | (acc, .badStatus st) => (some (sortNames acc), .badStatus st)
  | (_, .cookieCrash) => (none, .cookieCrash)
  | (_, .fuelOut) => (none, .fuelOut)

/-- A run in which the first READDIR reply carries one name and the
second reply has a non-OK status. -/
def exRd : ReaddirOracle := fun cookie =>
  if cookie = 0 then some { status := NFS3_OK, entries := [([97], 7)], eof := false }
  else some { status := 5, entries := [], eof := false }

/-! ## Privileged-port acquisition: `privileged` -/

/-- Outcome of `bind` on a candidate local port in this run. -/
inductive BindOutcome
  | bindOk
  | addrInUse
  | addrNotAvail
  | otherErr
deriving DecidableEq

/-- Result of `privileged`. -/
inductive PrivResult
  | portBound (port : Nat)
  | createFail
  | allPortsInUse
deriving DecidableEq

/-- First unprivileged port. -/
def IPPORT_RESERVED : Nat := 1024

/-- The descending bind probe of `privileged`: try the current port; on
success return it; on an error other than EADDRINUSE or EADDRNOTAVAIL
fail; otherwise decrement, report "All ports in use" when the
decremented port reaches `IPPORT_RESERVED/2` = 512 (so port 512 itself is
never tried), and continue.  `none` is fuel exhaustion, impossible from
the entry point. -/
def privProbe (b : Nat → BindOutcome) : Nat → Nat → Option PrivResult
  | 0, _ => none
  | fuel + 1, lport =>
    match b lport with
    | .bindOk => some (.portBound lport)
    | .otherErr => some .createFail
    | .addrInUse | .addrNotAvail =>
      if lport - 1 = IPPORT_RESERVED / 2 then some .allPortsInUse
      else privProbe b fuel (lport - 1)

/-- `privileged` from the source: the probe starts at port 1023. -/
def privileged (b : Nat → BindOutcome) : Option PrivResult :=
  privProbe b IPPORT_RESERVED (IPPORT_RESERVED - 1)

/-- A run in which every port except 512 is occupied. -/
def exBind512 : Nat → BindOutcome :=
  fun p => if p = 512 then .bindOk else .addrInUse

/-- A run in which ports 1001..1023 are occupied and 1000 is free. -/
def exBind1000 : Nat → BindOutcome :=
  fun p => if 1001 ≤ p then .addrInUse else .bindOk

/-! ## File read loops: `do_get` and `do_cat` -/

/-- The parts of a READ3 reply the loops inspect: status, the byte count
actually returned, and the eof flag. -/
structure ReadReply where
  status : Nat
  dataLen : Nat
  eof : Bool
deriving DecidableEq

/-- A run of the server: the READ reply for each (offset, count) pair;
`none` models an RPC failure. -/
abbrev ReadOracle := Nat → Nat → Option ReadReply

/-- Why a read loop stopped. -/
inductive ReadStop
  | sizeReached
  | eofSeen
  | rpcFail
  | badStatus (st : Nat)
  | fuelOut
deriving DecidableEq

/-- The READ loop of `do_get`: while the offset is below the looked-up
size, issue READ(offset, transfersize); stop on RPC failure or non-OK
status; otherwise advance the offset by the bytes actually returned and
stop when the reply says eof.  Returns the READ calls issued as
(offset, count) pairs, the final offset, and the stop reason. -/
def getReadLoop (rd : ReadOracle) (size transfersize : Nat) :
    Nat → Nat → (List (Nat × Nat) × Nat × ReadStop)
  | 0, offset => ([], offset, .fuelOut)
  | fuel + 1, offset =>
    if offset < size then
      match rd offset transfersize with
      | none => ([(offset, transfersize)], offset, .rpcFail)
      | some r =>
        if r.status ≠ NFS3_OK then
          ([(offset, transfersize)], offset, .badStatus r.status)
        else if r.eof then
          ([(offset, transfersize)], offset + r.dataLen, .eofSeen)
        else
          let rest := getReadLoop rd size transfersize fuel (offset + r.dataLen)
          ((offset, transfersize) :: rest.1, rest.2)
    else ([], offset, .sizeReached)

/-- Result of the read phase of `do_get` on one file: the calls issued,
the final offset, the stop reason, and whether the size-mismatch warning
is printed (it is printed, as a warning only, whenever the final offset
differs from the looked-up size). -/
structure GetReadResult where
  calls : List (Nat × Nat)
  finalOffset : Nat
  stop : ReadStop
  warning : Bool
deriving DecidableEq

/-- The read phase of `do_get` on one file. -/
def do_get_read (rd : ReadOracle) (size transfersize fuel : Nat) : GetReadResult :=
  let r := getReadLoop rd size transfersize fuel 0
  { calls := r.1, finalOffset := r.2.1, stop := r.2.2,
    warning := decide (r.2.1 ≠ size) }

/-- The READ loop of `do_cat`: same entry condition and error handling as
`do_get`, but the offset advances by `transfersize` regardless of the
bytes actually returned, and the eof flag of the reply is never
consulted; `do_cat` prints no size-mismatch warning. -/
def catReadLoop (rd : ReadOracle) (size transfersize : Nat) :
    Nat → Nat → (List (Nat × Nat) × Nat × ReadStop)
  | 0, offset => ([], offset, .fuelOut)
  | fuel + 1, offset =>
    if offset < size then
      match rd offset transfersize with
      | none => ([(offset, transfersize)], offset, .rpcFail)
      | some r =>
        if r.status ≠ NFS3_OK then
          ([(offset, transfersize)], offset, .badStatus r.status)
        else
          let rest := catReadLoop rd size transfersize fuel (offset + transfersize)
          ((offset, transfersize) :: rest.1, rest.2)
    else ([], offset, .sizeReached)

/-- A run for a file of size 10: the READ at offset 0 returns 4 bytes
without eof, any other READ returns 2 bytes with eof. -/
def exRead : ReadOracle := fun offset _count =>
  if offset = 0 then some { status := NFS3_OK, dataLen := 4, eof := false }
  else some { status := NFS3_OK, dataLen := 2, eof := true }

/-- A run in which every READ returns the full requested count with the
eof flag set. -/
def exReadEof : ReadOracle := fun _offset count =>
  some { status := NFS3_OK, dataLen := count, eof := true }

/-- A run in which every READ returns the full requested count without
eof. -/
def exReadAllOk : ReadOracle := fun _offset count =>
  some { status := NFS3_OK, dataLen := count, eof := false }

/-! ## File upload: `do_put` -/

/-- How a `put` run ends. -/
inductive PutOutcome
  | completed
  | createRpcFail
  | lookupRpcFail
  | lookupErr (st : Nat)
  | writeRpcFail
  | writeErr (st : Nat)
deriving DecidableEq

/-- Result of a `put` run: whether the CREATE warning was printed, the
WRITE calls issued as (offset, count) pairs, and the outcome. -/
structure PutResult where
  createWarning : Bool
  writes : List (Nat × Nat)
  outcome : PutOutcome
deriving DecidableEq

/-- The WRITE loop of `do_put`: one WRITE per `fread` chunk, starting at
offset 0, each advancing the offset by the chunk length; an RPC failure
or non-OK reply aborts the loop.  `wr` gives the WRITE reply status for
each (offset, count); `chunks` are the chunk lengths `fread` returns. -/
def putWriteLoop (wr : Nat → Nat → Option Nat) (offset : Nat) :
    List Nat → (List (Nat × Nat) × PutOutcome)
  | [] => ([], .completed)
  | n :: rest =>
    match wr offset n with
    | none => ([(offset, n)], .writeRpcFail)
    | some st =>
      if st ≠ NFS3_OK then ([(offset, n)], .writeErr st)
      else
        let r := putWriteLoop wr (offset + n) rest
        ((offset, n) :: r.1, r.2)

/-- `do_put` after the local file was opened: CREATE the remote name (a
reply with non-OK status only prints a warning and the command goes on),
then LOOKUP the same name (failure here does abort), then run the WRITE
loop from offset 0 on the looked-up handle. -/
def do_put (createStatus : Option Nat) (lookupReply : Option (Nat × Handle))
    (wr : Nat → Nat → Option Nat) (chunks : List Nat) : PutResult :=
  match createStatus with
  | none => { createWarning := false, writes := [], outcome := .createRpcFail }
  | some cst =>
    let warn := decide (cst ≠ NFS3_OK)
    match lookupReply with
    | none => { createWarning := warn, writes := [], outcome := .lookupRpcFail }
    | some (lst, _h) =>
      if lst ≠ NFS3_OK then
        { createWarning := warn, writes := [], outcome := .lookupErr lst }
      else
        let r := putWriteLoop wr 0 chunks
        { createWarning := warn, writes := r.1, outcome := r.2 }

/-- The (offset, count) pairs of writing the chunks in order from a
starting offset; stated from the spec sentence that `put` writes the
local contents to the looked-up handle starting at offset 0. -/
def chunkOffsets (offset : Nat) : List Nat → List (Nat × Nat)
  | [] => []
  | n :: rest => (offset, n) :: chunkOffsets (offset + n) rest

/-- A bind outcome on which the probe of `privileged` continues to the
next lower port. -/
def bindCont (o : BindOutcome) : Prop :=
  o = .addrInUse ∨ o = .addrNotAvail

/-- Relation between consecutive READ calls of the `do_get` loop: the
later call starts where the earlier reply left off, the earlier reply
being OK and not eof. -/
def getAdvance (rd : ReadOracle) (T : Nat) (a b : Nat × Nat) : Prop :=
  ∃ r, rd a.1 T = some r ∧ r.status = NFS3_OK ∧ r.eof = false ∧ b.1 = a.1 + r.dataLen

/-- A server run for `do_cd`: in directory `[0]` the name `a` is a
directory with handle `[1]`; looking up `b` anywhere reports status 2
(no such file or directory). -/
def exLookup : LookupOracle := fun h comp =>
  if comp = ['a'] ∧ h = [0] then
    some { status := NFS3_OK, ftype := .nf3dir, object := [1] }
  else if comp = ['b'] then
    some { status := 2, ftype := .nf3reg, object := [2] }
  else none

/-- A mounted session whose root and current directory are handle `[0]`. -/
def exCdSession : CdSession :=
  { mountpath := some ['/'], rootHandle := [0], directory_handle := [0] }

/-! ## Theorems -/

/-- C4: the client-side glob matcher satisfies the five listed concrete
cases, and an empty pattern list matches every name. -/
theorem match_glob_cases :
    matchNames (str ("foo.txt")) [str ("*.txt")] = true ∧
    matchNames (str (".bashrc")) [str ("*")] = false ∧
    matchNames (str (".bashrc")) [str (".*")] = true ∧
    matchNames (str ("a")) [str ("[abc]")] = true ∧
    matchNames (str ("d")) [str ("[a-c]")] = false ∧
    ∀ s : List Nat, matchNames s [] = true :=
  ⟨by decide, by decide, by decide, by decide, by decide, fun _ => rfl⟩

/-- C9: the default arm of `nfs_error` renders every status outside the
fixed table as the misspelled string "UKNOWN NFS ERROR", not as
"UNKNOWN NFS ERROR" as the claim (and the evident intent) states. -/
theorem nfs_error_unknown_misspelled :
    nfs_error (.other 9999) = "UKNOWN NFS ERROR" ∧
    nfs_error (.other 9999) ≠ "UNKNOWN NFS ERROR" :=
  ⟨rfl, by decide⟩

/-- C8 counterexample: `chown 100 file` with no gid part still marks the
gid field set, sending gid value -1, where the claim requires the gid
field to be unset. -/
theorem chown_gid_always_set :
    (chownSetattrArgs 100 none).newAttributes.gidSet = true ∧
    (chownSetattrArgs 100 none).newAttributes.gidVal = -1 :=
  ⟨rfl, rfl⟩

/-- C8 (amended): chmod sends a SETATTR setting only the mode field;
chown sends one setting the uid and always the gid, the latter carrying
the supplied gid or -1 when the user gave none; both use a guard of
check = false. -/
theorem chmod_chown_setattr_fields :
    ∀ (mode : Nat) (ownUid : Int) (ownGid : Option Int),
      ((chmodSetattrArgs mode).newAttributes.modeSet = true ∧
       (chmodSetattrArgs mode).newAttributes.modeVal = mode ∧
       (chmodSetattrArgs mode).newAttributes.uidSet = false ∧
       (chmodSetattrArgs mode).newAttributes.gidSet = false ∧
       (chmodSetattrArgs mode).newAttributes.sizeSet = false ∧
       (chmodSetattrArgs mode).newAttributes.atimeSet = false ∧
       (chmodSetattrArgs mode).newAttributes.mtimeSet = false ∧
       (chmodSetattrArgs mode).guardCheck = false) ∧
      ((chownSetattrArgs ownUid ownGid).newAttributes.modeSet = false ∧
       (chownSetattrArgs ownUid ownGid).newAttributes.uidSet = true ∧
       (chownSetattrArgs ownUid ownGid).newAttributes.uidVal = ownUid ∧
       (chownSetattrArgs ownUid ownGid).newAttributes.gidSet = true ∧
       (chownSetattrArgs ownUid ownGid).newAttributes.gidVal = ownGid.getD (-1) ∧
       (chownSetattrArgs ownUid ownGid).newAttributes.sizeSet = false ∧
       (chownSetattrArgs ownUid ownGid).newAttributes.atimeSet = false ∧
       (chownSetattrArgs ownUid ownGid).newAttributes.mtimeSet = false ∧
       (chownSetattrArgs ownUid ownGid).guardCheck = false) :=
  fun _ _ _ =>
    ⟨⟨rfl, rfl, rfl, rfl, rfl, rfl, rfl, rfl⟩,
     ⟨rfl, rfl, rfl, rfl, rfl, rfl, rfl, rfl, rfl⟩⟩

/-- C7: two reachable violations of the claimed channel invariant.
First, `host H; mount P` where the MNT call fails leaves a live NFS
client although `mountpath` is still null.  Second, after
`host H; mount P; umount`, the `uid` command operates on the destroyed
`nfsclient`, because `close_nfs` destroys the client without resetting
the pointer to null. -/
theorem session_channel_invariant_violated :
    ((open_nfs_mnt_fails (open_mount_ok initialChannels).1).1.nfsclient = ClientPtr.live ∧
     (open_nfs_mnt_fails (open_mount_ok initialChannels).1).1.mountpath = false) ∧
    ((close_nfs (open_nfs_ok (open_mount_ok initialChannels).1).1).1.nfsclient
        = ClientPtr.destroyed ∧
     (close_nfs (open_nfs_ok (open_mount_ok initialChannels).1).1).1.mountpath = false ∧
     (do_setuid (close_nfs (open_nfs_ok (open_mount_ok initialChannels).1).1).1).2 = true) := by
  decide

/-- C5 counterexample: with both transport flags supplied (`-T -U`, so
the transport bits equal 3) and TCP creation failing, `open_nfs` falls
back to UDP, refuting that fallback happens only when no transport flag
was supplied. -/
theorem open_nfs_fallback_despite_flags :
    (openNfsTransports (NFS_OVER_TCP ||| NFS_OVER_UDP) false true).1
      = [Transport.tcp, Transport.udp] ∧
    (NFS_OVER_TCP ||| NFS_OVER_UDP) &&& TRANSPORT_MASK ≠ 0 := by
  decide

/-- C5 (amended): fallback (attempting TCP then UDP) occurs iff the
transport bits of the flags are 0 (no flag) or 3 (both flags) and TCP
client creation fails; when exactly one transport flag is set, only that
transport is attempted and its failure is reported without trying the
other; in the fallback branch a successful TCP attempt settles on TCP. -/
theorem open_nfs_transport_selection :
    ∀ (flags : Nat) (t u : Bool),
      ((openNfsTransports flags t u).1 = [Transport.tcp, Transport.udp] ↔
        (flags &&& TRANSPORT_MASK = 0 ∨ flags &&& TRANSPORT_MASK = 3) ∧ t = false) ∧
      (flags &&& TRANSPORT_MASK = NFS_OVER_UDP →
        (openNfsTransports flags t u).1 = [Transport.udp] ∧
        ((openNfsTransports flags t u).2 = none ↔ u = false)) ∧
      (flags &&& TRANSPORT_MASK = NFS_OVER_TCP →
        (openNfsTransports flags t u).1 = [Transport.tcp] ∧
        ((openNfsTransports flags t u).2 = none ↔ t = false)) ∧
      ((flags &&& TRANSPORT_MASK = 0 ∨ flags &&& TRANSPORT_MASK = 3) → t = true →
        (openNfsTransports flags t u).2 = some Transport.tcp) := by
  intro flags t u
  have hm : flags &&& TRANSPORT_MASK ≤ 3 := Nat.and_le_right
  simp only [openNfsTransports]
  generalize flags &&& TRANSPORT_MASK = m at hm ⊢
  interval_cases m <;> cases t <;> cases u <;>
    simp [NFS_OVER_UDP, NFS_OVER_TCP]

/-- C5 witness: with only the UDP flag set, exactly UDP is attempted. -/
theorem open_nfs_transport_selection_witness :
    (openNfsTransports NFS_OVER_UDP true false).1 = [Transport.udp] :=
  ((open_nfs_transport_selection NFS_OVER_UDP true false).2.1 (by decide)).1

/-- C2 counterexample: in a run whose first READDIR reply carries the
name `a` and whose second reply has status 5, `getdirentries` returns
success with the one-name table, not the empty result the claim
requires. -/
theorem getdirentries_partial_counterexample :
    getdirentries exRd 2 = (some [[97]], DirStop.badStatus 5) ∧
    (some [[97]] : Option (List (List Nat))) ≠ some [] := by
  decide

/-- C2 (amended): when a READDIR reply carries a non-OK status the
iteration terminates, but the names accumulated from the earlier replies
are sorted and handed to the caller with a success return, rather than
being discarded. -/
theorem getdirentries_error_returns_partial :
    ∀ (rd : ReaddirOracle) (fuel st : Nat),
      (getdirLoop rd fuel 0 []).2 = DirStop.badStatus st →
      getdirentries rd fuel =
        (some (sortNames (getdirLoop rd fuel 0 []).1), DirStop.badStatus st) := by
  intro rd fuel st h
  rcases hr : getdirLoop rd fuel 0 [] with ⟨acc, stop⟩
  rw [hr] at h
  have h' : stop = DirStop.badStatus st := h
  subst h'
  unfold getdirentries
  rw [hr]

/-- C2 witness: the amended statement applied to the two-reply run. -/
theorem getdirentries_error_returns_partial_witness :
    getdirentries exRd 2 =
      (some (sortNames (getdirLoop exRd 2 0 []).1), DirStop.badStatus 5) :=
  getdirentries_error_returns_partial exRd 2 5 (by decide)

/-- Write loop of `do_put` when every WRITE succeeds: the calls cover the
chunks in order at their cumulative offsets. -/
theorem putWriteLoop_all_ok :
    ∀ (wr : Nat → Nat → Option Nat), (∀ o c, wr o c = some NFS3_OK) →
      ∀ (chunks : List Nat) (offset : Nat),
        putWriteLoop wr offset chunks = (chunkOffsets offset chunks, .completed) := by
  intro wr hwr chunks
  induction chunks with
  | nil => intro offset; rfl
  | cons n rest ih =>
    intro offset
    simp only [putWriteLoop, hwr offset n, chunkOffsets, ih (offset + n)]
    rfl

/-- C10: a CREATE reply with non-OK status only switches on the warning;
the WRITE calls and the outcome are the same as for a successful CREATE;
with a successful LOOKUP the first WRITE goes to offset 0, and when every
WRITE succeeds, the chunks are written back to back from offset 0. -/
theorem put_create_failure_only_warns :
    ∀ (cst : Nat) (lk : Option (Nat × Handle)) (wr : Nat → Nat → Option Nat)
      (chunks : List Nat),
      (do_put (some cst) lk wr chunks).writes = (do_put (some NFS3_OK) lk wr chunks).writes ∧
      (do_put (some cst) lk wr chunks).outcome = (do_put (some NFS3_OK) lk wr chunks).outcome ∧
      (do_put (some cst) lk wr chunks).createWarning = decide (cst ≠ NFS3_OK) ∧
      (∀ h n rest, lk = some (NFS3_OK, h) → chunks = n :: rest →
        (do_put (some cst) lk wr chunks).writes.head? = some (0, n)) ∧
      (∀ h, lk = some (NFS3_OK, h) → (∀ o c, wr o c = some NFS3_OK) →
        (do_put (some cst) lk wr chunks).writes = chunkOffsets 0 chunks ∧
        (do_put (some cst) lk wr chunks).outcome = PutOutcome.completed) := by
  intro cst lk wr chunks
  rcases lk with _ | ⟨lst, hnd⟩
  · refine ⟨rfl, rfl, rfl, ?_, ?_⟩
    · intro h n rest hlk; cases hlk
    · intro h hlk; cases hlk
  · by_cases hl : lst = NFS3_OK
    · subst hl
      refine ⟨by simp [do_put], by simp [do_put], by simp [do_put], ?_, ?_⟩
      · intro h n rest hlk hc
        subst hc
        simp only [do_put, ne_eq, not_true_eq_false, if_false]
        rcases hw : wr 0 n with _ | st
        · simp [putWriteLoop, hw]
        · by_cases hst : st = NFS3_OK
          · subst hst; simp [putWriteLoop, hw]
          · simp [putWriteLoop, hw, hst]
      · intro h hlk hwr
        simp only [do_put, ne_eq, not_true_eq_false, if_false]
        rw [putWriteLoop_all_ok wr hwr chunks 0]
        exact ⟨rfl, rfl⟩
    · refine ⟨by simp [do_put, hl], by simp [do_put, hl], by simp [do_put, hl], ?_, ?_⟩
      · intro h n rest hlk hc
        exact absurd ((Prod.ext_iff.mp (Option.some.inj hlk)).1) hl
      · intro h hlk
        exact absurd ((Prod.ext_iff.mp (Option.some.inj hlk)).1) hl

/-- C10 witness: put with a CREATE status of 17 (NFS3ERR_EXIST), a
successful LOOKUP and all WRITEs succeeding writes the two chunks back
to back from offset 0. -/
theorem put_create_failure_only_warns_witness :
    (do_put (some 17) (some (NFS3_OK, [1])) (fun _ _ => some NFS3_OK) [3, 2]).writes
        = chunkOffsets 0 [3, 2] ∧
    (do_put (some 17) (some (NFS3_OK, [1])) (fun _ _ => some NFS3_OK) [3, 2]).outcome
        = PutOutcome.completed :=
  (put_create_failure_only_warns 17 (some (NFS3_OK, [1])) (fun _ _ => some NFS3_OK)
    [3, 2]).2.2.2.2 [1] rfl (fun _ _ => rfl)

/-- The suffix of the path the component walk continues with is strictly
shorter than the path. -/
theorem cdRest_length_lt :
    ∀ (c : Char) (p' : List Char),
      (((c :: p').dropWhile (fun ch => ch ≠ '/')).tail).length < (c :: p').length := by
  intro c p'
  have h1 : ((c :: p').dropWhile (fun ch => ch ≠ '/')).length ≤ (c :: p').length :=
    List.Sublist.length_le (List.dropWhile_sublist _)
  have h2 := List.length_tail ((c :: p').dropWhile (fun ch => ch ≠ '/'))
  simp only [List.length_cons] at *
  omega

/-- The component walk never runs out when the fuel exceeds the path
length, so the fuel `do_cd` passes is always sufficient. -/
theorem cdWalk_no_fuelOut :
    ∀ (L : LookupOracle) (fuel : Nat) (h : Handle) (p : List Char),
      p.length < fuel → cdWalk L fuel h p ≠ CdResult.fuelOut := by
  intro L fuel
  induction fuel with
  | zero => intro h p hp; omega
  | succ n ih =>
    intro h p hp
    match p with
    | [] => simp [cdWalk]
    | c :: p' =>
      simp only [cdWalk]
      rcases hL : L h ((c :: p').takeWhile (fun ch => ch ≠ '/')) with _ | r
      · simp
      · by_cases hst : r.status ≠ NFS3_OK
        · simp [hst]
        · by_cases hty : r.ftype ≠ NfType.nf3dir
          · simp [hst, hty]
          · simp only [hst, hty, if_false, ite_false]
            apply ih
            have := cdRest_length_lt c p'
            simp only [List.length_cons] at *
            omega

/-- C1: `do_cd` replaces the current directory handle only on full
success of the component walk: a LOOKUP reply with non-OK status, a
component whose post-op type is not NF3DIR, or an RPC failure leaves the
session exactly as it was, and a fully successful walk installs exactly
the final handle. -/
theorem do_cd_only_mutates_on_success :
    ∀ (L : LookupOracle) (s : CdSession) (path : List Char),
      (∀ comp st, cdWalkOf L s path = CdResult.nfsErr comp st →
        do_cd L s (some path) = s) ∧
      (∀ comp, cdWalkOf L s path = CdResult.notDir comp →
        do_cd L s (some path) = s) ∧
      (cdWalkOf L s path = CdResult.rpcErr → do_cd L s (some path) = s) ∧
      (∀ h, s.mountpath.isSome = true → cdWalkOf L s path = CdResult.ok h →
        do_cd L s (some path) = { s with directory_handle := h }) := by
  intro L s path
  rcases hmp : s.mountpath with _ | mp
  · refine ⟨?_, ?_, ?_, ?_⟩
    · intro comp st _; simp [do_cd, hmp]
    · intro comp _; simp [do_cd, hmp]
    · intro _; simp [do_cd, hmp]
    · intro h hS _
      simp_all
  · refine ⟨?_, ?_, ?_, ?_⟩
    · intro comp st hW; simp [do_cd, hmp, hW]
    · intro comp hW; simp [do_cd, hmp, hW]
    · intro hW; simp [do_cd, hmp, hW]
    · intro h _ hW; simp [do_cd, hmp, hW]

/-- C1 witness: walking `a/b` where the LOOKUP of `b` reports status 2
leaves the session untouched. -/
theorem do_cd_only_mutates_on_success_witness :
    do_cd exLookup exCdSession (some ['a', '/', 'b']) = exCdSession :=
  (do_cd_only_mutates_on_success exLookup exCdSession ['a', '/', 'b']).1 ['b'] 2
    (by decide)

set_option maxRecDepth 8000 in
/-- C3 counterexample: with every port except 512 occupied, the probe
reports all ports in use without ever attempting port 512, although 512
is free and inside the claimed range [512, 1023]. -/
theorem privileged_skips_512 :
    privileged exBind512 = some PrivResult.allPortsInUse ∧
    exBind512 512 = BindOutcome.bindOk ∧
    some PrivResult.allPortsInUse ≠ some (PrivResult.portBound 512) := by
  decide

/-- Stepping the probe past a stretch of occupied ports above `p`
reaches `p` with the corresponding amount of fuel spent. -/
theorem privProbe_skips_busy :
    ∀ (b : Nat → BindOutcome) (fuel lport p : Nat),
      513 ≤ p → p ≤ lport → lport - p < fuel →
      (∀ q, p < q → q ≤ lport → bindCont (b q)) →
      ∃ fuel', fuel' + (lport - p) = fuel ∧
        privProbe b fuel lport = privProbe b fuel' p := by
  intro b fuel
  induction fuel with
  | zero => intro lport p h1 h2 h3 h4; omega
  | succ n ih =>
    intro lport p h1 h2 h3 h4
    by_cases hpl : lport = p
    · subst hpl; exact ⟨n + 1, by omega, rfl⟩
    · have hlt : p < lport := by omega
      have hb := h4 lport hlt (le_refl _)
      have h512 : IPPORT_RESERVED / 2 = 512 := rfl
      have hne : ¬ (lport - 1 = IPPORT_RESERVED / 2) := by
        rw [h512]; omega
      have hstep : privProbe b (n + 1) lport = privProbe b n (lport - 1) := by
        rcases hb with hb | hb <;> simp [privProbe, hb, hne]
      obtain ⟨fuel', hf, heq⟩ := ih (lport - 1) p h1 (by omega) (by omega)
        (fun q hq hq' => h4 q hq (by omega))
      exact ⟨fuel', by omega, hstep.trans heq⟩

/-- C3 (amended): the probe descends from 1023, continuing over
EADDRINUSE and EADDRNOTAVAIL; the first free port in [513, 1023] is
bound; any other bind error there aborts with a creation failure; and
when all of 513..1023 are occupied the probe reports all ports in use —
port 512 is never attempted. -/
theorem privileged_probe_behaviour :
    ∀ (b : Nat → BindOutcome) (p : Nat),
      (513 ≤ p → p ≤ 1023 → (∀ q, p < q → q ≤ 1023 → bindCont (b q)) →
        (b p = BindOutcome.bindOk → privileged b = some (PrivResult.portBound p)) ∧
        (b p = BindOutcome.otherErr → privileged b = some PrivResult.createFail)) ∧
      ((∀ q, 513 ≤ q → q ≤ 1023 → bindCont (b q)) →
        privileged b = some PrivResult.allPortsInUse) := by
  intro b p
  constructor
  · intro h1 h2 h3
    obtain ⟨fuel', hf, heq⟩ := privProbe_skips_busy b 1024 1023 p h1 h2 (by omega) h3
    obtain ⟨k, hk⟩ : ∃ k, fuel' = k + 1 := ⟨fuel' - 1, by omega⟩
    subst hk
    constructor
    · intro hb
      show privProbe b 1024 1023 = _
      rw [heq]
      simp [privProbe, hb]
    · intro hb
      show privProbe b 1024 1023 = _
      rw [heq]
      simp [privProbe, hb]
  · intro hall
    obtain ⟨fuel', hf, heq⟩ := privProbe_skips_busy b 1024 1023 513 (by omega) (by omega)
      (by omega) (fun q hq hq' => hall q (by omega) hq')
    obtain ⟨k, hk⟩ : ∃ k, fuel' = k + 1 := ⟨fuel' - 1, by omega⟩
    subst hk
    show privProbe b 1024 1023 = _
    rw [heq]
    have hb := hall 513 (by omega) (by omega)
    rcases hb with hb | hb <;> simp [privProbe, hb, IPPORT_RESERVED]

/-- C3 witness: with 1001..1023 occupied and 1000 free, the probe binds
port 1000. -/
theorem privileged_probe_behaviour_witness :
    privileged exBind1000 = some (PrivResult.portBound 1000) :=
  ((privileged_probe_behaviour exBind1000 1000).1 (by omega) (by omega)
      (fun q hq _ => Or.inl (by
        have hq' : 1001 ≤ q := by omega
        simp [exBind1000, hq'])) ).1
    (by simp [exBind1000])

/-- C6 counterexample: for a file of size 10 with transfer size 8, the
`do_cat` loop issues its second READ at offset 8 although the first
reply returned only 4 bytes (the claim requires offset 4); and with
every reply flagging eof, `do_cat` keeps issuing READs while `do_get`
stops after the first. -/
theorem cat_ignores_returned_length_and_eof :
    (catReadLoop exRead 10 8 5 0).1 = [(0, 8), (8, 8)] ∧
    exRead 0 8 = some { status := NFS3_OK, dataLen := 4, eof := false } ∧
    (8 : Nat) ≠ 0 + 4 ∧
    (catReadLoop exReadEof 20 8 9 0).1 = [(0, 8), (8, 8), (16, 8)] ∧
    (getReadLoop exReadEof 20 8 9 0).1 = [(0, 8)] := by
  decide

/-- Shape invariants of the `do_get` READ loop, for any starting
offset. -/
theorem getReadLoop_invariants :
    ∀ (rd : ReadOracle) (S T fuel off : Nat),
      (∀ c ∈ (getReadLoop rd S T fuel off).1, c.2 = T ∧ c.1 < S) ∧
      List.Chain' (getAdvance rd T) (getReadLoop rd S T fuel off).1 ∧
      (∀ c ∈ (getReadLoop rd S T fuel off).1.head?, c.1 = off) ∧
      ((getReadLoop rd S T fuel off).2.2 = ReadStop.sizeReached →
        S ≤ (getReadLoop rd S T fuel off).2.1) := by
  intro rd S T fuel
  induction fuel with
  | zero =>
    intro off
    refine ⟨by simp [getReadLoop], by simp [getReadLoop], by simp [getReadLoop], ?_⟩
    intro hstop
    simp [getReadLoop] at hstop
  | succ n ih =>
    intro off
    by_cases hS : off < S
    · rcases hr : rd off T with _ | r
      · refine ⟨?_, ?_, ?_, ?_⟩ <;> simp [getReadLoop, hS, hr]
      · by_cases hst : r.status ≠ NFS3_OK
        · refine ⟨?_, ?_, ?_, ?_⟩ <;> simp [getReadLoop, hS, hr, hst]
        · by_cases he : r.eof
          · refine ⟨?_, ?_, ?_, ?_⟩ <;> simp [getReadLoop, hS, hr, hst, he]
          · have hcons : getReadLoop rd S T (n + 1) off =
                ((off, T) :: (getReadLoop rd S T n (off + r.dataLen)).1,
                  (getReadLoop rd S T n (off + r.dataLen)).2) := by
              simp [getReadLoop, hS, hr, hst, he]
            obtain ⟨ih1, ih2, ih3, ih4⟩ := ih (off + r.dataLen)
            refine ⟨?_, ?_, ?_, ?_⟩
            · intro c hc
              rw [hcons] at hc
              rcases List.mem_cons.mp hc with hc | hc
              · subst hc; exact ⟨rfl, hS⟩
              · exact ih1 c hc
            · rw [hcons]
              refine List.chain'_cons'.mpr ⟨?_, ih2⟩
              intro y hy
              refine ⟨r, hr, ?_, ?_, ?_⟩
              · simpa using hst
              · simpa using he
              · exact ih3 y hy
            · intro c hc
              rw [hcons] at hc
              simp only [List.head?_cons, Option.mem_def, Option.some.injEq] at hc
              subst hc; rfl
            · rw [hcons]
              exact ih4
    · refine ⟨?_, ?_, ?_, ?_⟩ <;> simp [getReadLoop, hS]
      omega

/-- Shape invariants of the `do_cat` READ loop, for any starting
offset. -/
theorem catReadLoop_invariants :
    ∀ (rd : ReadOracle) (S T fuel off : Nat),
      (∀ c ∈ (catReadLoop rd S T fuel off).1, c.2 = T ∧ c.1 < S) ∧
      List.Chain' (fun a b : Nat × Nat => b.1 = a.1 + T) (catReadLoop rd S T fuel off).1 ∧
      (∀ c ∈ (catReadLoop rd S T fuel off).1.head?, c.1 = off) ∧
      (catReadLoop rd S T fuel off).2.2 ≠ ReadStop.eofSeen := by
  intro rd S T fuel
  induction fuel with
  | zero =>
    intro off
    refine ⟨by simp [catReadLoop], by simp [catReadLoop], by simp [catReadLoop], ?_⟩
    simp [catReadLoop]
  | succ n ih =>
    intro off
    by_cases hS : off < S
    · rcases hr : rd off T with _ | r
      · refine ⟨?_, ?_, ?_, ?_⟩ <;> simp [catReadLoop, hS, hr]
      · by_cases hst : r.status ≠ NFS3_OK
        · refine ⟨?_, ?_, ?_, ?_⟩ <;> simp [catReadLoop, hS, hr, hst]
        · have hcons : catReadLoop rd S T (n + 1) off =
              ((off, T) :: (catReadLoop rd S T n (off + T)).1,
                (catReadLoop rd S T n (off + T)).2) := by
            simp [catReadLoop, hS, hr, hst]
          obtain ⟨ih1, ih2, ih3, ih4⟩ := ih (off + T)
          refine ⟨?_, ?_, ?_, ?_⟩
          · intro c hc
            rw [hcons] at hc
            rcases List.mem_cons.mp hc with hc | hc
            · subst hc; exact ⟨rfl, hS⟩
            · exact ih1 c hc
          · rw [hcons]
            refine List.chain'_cons'.mpr ⟨?_, ih2⟩
            intro y hy
            exact ih3 y hy
          · intro c hc
            rw [hcons] at hc
            simp only [List.head?_cons, Option.mem_def, Option.some.injEq] at hc
            subst hc; rfl
          · rw [hcons]
            exact ih4
    · refine ⟨?_, ?_, ?_, ?_⟩ <;> simp [catReadLoop, hS]

/-- C6 (amended): every READ of the `do_get` loop carries
count = transfersize at an offset below the looked-up size, consecutive
READs advance by the bytes the previous reply actually returned, a
sizeReached stop means the offset reached the size, and a final offset
different from the size sets only the warning flag.  The `do_cat` loop
also issues every READ with count = transfersize below the size, but its
consecutive READs advance by transfersize regardless of the bytes
returned, and it never stops because of an eof flag. -/
theorem read_loop_shapes :
    ∀ (rd : ReadOracle) (S T fuel : Nat),
      (∀ c ∈ (getReadLoop rd S T fuel 0).1, c.2 = T ∧ c.1 < S) ∧
      List.Chain' (getAdvance rd T) (getReadLoop rd S T fuel 0).1 ∧
      ((getReadLoop rd S T fuel 0).2.2 = ReadStop.sizeReached →
        S ≤ (getReadLoop rd S T fuel 0).2.1) ∧
      (do_get_read rd S T fuel).warning
        = decide ((getReadLoop rd S T fuel 0).2.1 ≠ S) ∧
      (∀ c ∈ (catReadLoop rd S T fuel 0).1, c.2 = T ∧ c.1 < S) ∧
      List.Chain' (fun a b : Nat × Nat => b.1 = a.1 + T) (catReadLoop rd S T fuel 0).1 ∧
      (catReadLoop rd S T fuel 0).2.2 ≠ ReadStop.eofSeen := by
  intro rd S T fuel
  obtain ⟨g1, g2, _, g4⟩ := getReadLoop_invariants rd S T fuel 0
  obtain ⟨c1, c2, _, c4⟩ := catReadLoop_invariants rd S T fuel 0
  exact ⟨g1, g2, g4, rfl, c1, c2, c4⟩

/-- C6 witness: a run of the `do_get` loop that stops because the offset
reached the size indeed ends at an offset no smaller than the size. -/
theorem read_loop_shapes_witness :
    (10 : Nat) ≤ (getReadLoop exReadAllOk 10 8 5 0).2.1 :=
  (read_loop_shapes exReadAllOk 10 8 5).2.2.1 (by decide)

end NfsShell
